import Mathlib

/-!
Shallow embedding of the operation-configuration and request-normalization
pipeline of `src/image_processing_frontend/src/App.js`: the raw form state,
the `parsedOps` normalizer, the upload / process / list-refresh flows and the
`updateOps` field patcher, together with theorems settling the frozen claims.
-/

set_option maxRecDepth 8000
set_option exponentiation.threshold 5000

namespace ImageSuite

/-- Model of a JavaScript number: `NaN`, a signed infinity, or a finite
IEEE-754 binary64 value stored as its exact rational value (every finite
double IS an exact rational, and the comparisons the code performs — `> 0`,
`>= 0`, `!== 1`, `Math.floor` — are exact functions of that value). Numeric
literals are rounded to the nearest double on parsing, see `roundToDouble`,
so overflow to infinity, underflow to zero and rounding onto the neutral
value 1 behave as in the source. -/
inductive JSNum where
  | nan : JSNum
  | inf (neg : Bool) : JSNum
  | num (q : ℚ) : JSNum
  deriving DecidableEq, Repr

/-- `Number.isNaN`. -/
def JSNum.isNaN : JSNum → Bool
  | .nan => true
  | _ => false

/-- `Number.isFinite`. -/
def JSNum.isFinite : JSNum → Bool
  | .num _ => true
  | _ => false

/-- The JavaScript comparison `n > 0` (false on `NaN`): a rational is
positive exactly when its reduced numerator is. -/
def JSNum.gtZero : JSNum → Bool
  | .nan => false
  | .inf neg => !neg
  | .num q => decide (0 < q.num)

/-- The JavaScript comparison `n >= 0` (false on `NaN`). -/
def JSNum.geZero : JSNum → Bool
  | .nan => false
  | .inf neg => !neg
  | .num q => decide (0 ≤ q.num)

/-- The JavaScript comparison `n === 1` (false on `NaN` and infinities): a
reduced rational equals one exactly when numerator and denominator are 1. -/
def JSNum.eqOne : JSNum → Bool
  | .num q => decide (q.num = 1 ∧ q.den = 1)
  | _ => false

/-- Value of a string of decimal digits. -/
def digitsToNat (cs : List Char) : Nat :=
  cs.foldl (fun acc c => acc * 10 + (c.toNat - 48)) 0

/-- Nonempty all-digit run, as an integer. -/
def parseDigitsInt (cs : List Char) : Option Int :=
  if cs ≠ [] ∧ cs.all Char.isDigit then some (digitsToNat cs) else none

/-- Exponent digits with an optional sign, consuming the whole input. -/
def parseSignedDigits : List Char → Option Int
  | '+' :: rest => parseDigitsInt rest
  | '-' :: rest => (parseDigitsInt rest).map (fun n => -n)
  | rest => parseDigitsInt rest

/-- Optional `e`/`E` exponent suffix; empty input means exponent 0. -/
def parseExp : List Char → Option Int
  | [] => some 0
  | 'e' :: rest => parseSignedDigits rest
  | 'E' :: rest => parseSignedDigits rest
  | _ => none

/-- Unsigned decimal literal `digits [. digits] [exponent]` (either digit run
may be empty but not both), consuming the whole input; returns integer part,
fraction digits, fraction length and exponent. -/
def parseUnsigned (cs : List Char) : Option (Nat × Nat × Nat × Int) :=
  let ip := cs.takeWhile Char.isDigit
  let rest1 := cs.dropWhile Char.isDigit
  match rest1 with
  | '.' :: rest2 =>
      let fp := rest2.takeWhile Char.isDigit
      let rest3 := rest2.dropWhile Char.isDigit
      if ip.isEmpty ∧ fp.isEmpty then none
      else
        (parseExp rest3).map (fun e =>
          (digitsToNat ip, digitsToNat fp, fp.length, e))
  | _ =>
      if ip.isEmpty then none
      else (parseExp rest1).map (fun e => (digitsToNat ip, 0, 0, e))

/-- `floor (log2 n)` by fuel-bounded shifting, in chunks of 4096, 256, 16
and 1 bits so the recursion stays shallow on double-range inputs (fuel `n`
suffices since at least one bit is consumed per step); structural recursion
so the kernel can evaluate it. -/
def log2Aux : Nat → Nat → Nat
  | 0, _ => 0
  | fuel + 1, n =>
      if 2 ^ 4096 ≤ n then log2Aux fuel (n / 2 ^ 4096) + 4096
      else if 2 ^ 256 ≤ n then log2Aux fuel (n / 2 ^ 256) + 256
      else if 2 ^ 16 ≤ n then log2Aux fuel (n / 2 ^ 16) + 16
      else if 2 ≤ n then log2Aux fuel (n / 2) + 1
      else 0

/-- `floor (log2 n)` for `n ≥ 1` (0 at 0). -/
def natLog2 (n : Nat) : Nat :=
  log2Aux n n

/-- `floor (log2 (n / d))` for positive naturals: for `n / d ≥ 1` this is the
log of the integer quotient; for `n / d < 1` it is minus the ceiling of
`log2 (d / n)`, computed as `clog2` of the ceiling of the integer quotient. -/
def floorLog2 (n d : Nat) : Int :=
  if d ≤ n then natLog2 (n / d)
  else if (d + n - 1) / n ≤ 1 then 0
  else -((natLog2 ((d + n - 1) / n - 1) : Int) + 1)

/-- Round the positive rational `n / d` (sign passed separately) to the
nearest IEEE-754 binary64 value with ties to even, exactly as JavaScript
rounds a numeric literal: the significand is the 53-bit rounding of
`n / d / 2^e` at the ulp exponent `e = max (floor(log2 (n/d)) - 52, -1074)`;
a rounded magnitude at or beyond `2^1024` overflows to the signed infinity,
a significand rounded to 0 underflows to zero, and a finite result is stored
as its exact rational value. -/
def roundToDouble (neg : Bool) (n d : Nat) : JSNum :=
  if n = 0 then .num 0
  else
    let k := floorLog2 n d
    let e : Int := max (k - 52) (-1074)
    let N := if 0 ≤ e then n else n * 2 ^ (-e).toNat
    let D := if 0 ≤ e then d * 2 ^ e.toNat else d
    let s := N / D
    let r := N % D
    let m :=
      if D < 2 * r then s + 1
      else if 2 * r = D then (if s % 2 = 0 then s else s + 1)
      else s
    if 0 ≤ e ∧ 2 ^ 1024 ≤ m * 2 ^ e.toNat then .inf neg
    else if m = 0 then .num 0
    else
      let mm : Int := if neg then -(m : Int) else (m : Int)
      if 0 ≤ e then .num (mkRat (mm * (2 ^ e.toNat : Nat)) 1)
      else .num (mkRat mm (2 ^ (-e).toNat))

/-- Value of a signed decimal literal
`(-1)^neg * (ip + fp / 10^fracLen) * 10^e`: the exact value is formed as an
integer numerator over a power-of-ten denominator and then rounded to the
nearest binary64 as `Number()` does. -/
def decToDouble (neg : Bool) (ip fp fracLen : Nat) (e : Int) : JSNum :=
  let mant := ip * 10 ^ fracLen + fp
  let e10 : Int := e - fracLen
  if 0 ≤ e10 then roundToDouble neg (mant * 10 ^ e10.toNat) 1
  else roundToDouble neg mant (10 ^ (-e10).toNat)

/-- Strip leading and trailing whitespace. -/
def trimWs (cs : List Char) : List Char :=
  ((cs.dropWhile Char.isWhitespace).reverse.dropWhile Char.isWhitespace).reverse

/-- The JavaScript `Number(string)` conversion on the fragment the form can
produce: whitespace trimming, empty string to `0`, an optional sign, decimal
literals with optional fraction and exponent — rounded to the nearest
binary64 like every JS numeric literal, so e.g. "1e999" is `Infinity`,
"1e-999" is `0` and "0.99999999999999999" is exactly `1` — and the literal
`Infinity`; any other text (including the hex/octal/binary literal forms the
number inputs cannot produce) is `NaN`. -/
def jsNumber (s : String) : JSNum :=
  let cs := trimWs s.toList
  match cs with
  | [] => .num 0
  | _ =>
    let signSplit : Bool × List Char :=
      match cs with
      | '-' :: rest => (true, rest)
      | '+' :: rest => (false, rest)
      | _ => (false, cs)
    let neg := signSplit.1
    let body := signSplit.2
    if body = "Infinity".toList then .inf neg
    else
      match parseUnsigned body with
      | some (ip, fp, len, e) => decToDouble neg ip fp len e
      | none => .nan

/-- `toInt` from `parsedOps` in App.js: `Number(v)`, then
`Number.isFinite(n) && n > 0 ? Math.floor(n) : null`. -/
def toInt (v : String) : Option Int :=
  match jsNumber v with
  | .num n => if 0 < n.num then some n.floor else none
  | _ => none

/-- `toNonNegInt` from `parsedOps` in App.js: `Number(v)`, then
`Number.isFinite(n) && n >= 0 ? Math.floor(n) : null`. -/
def toNonNegInt (v : String) : Option Int :=
  match jsNumber v with
  | .num n => if 0 ≤ n.num then some n.floor else none
  | _ => none

/-- Raw `ops.resize` sub-state: two text fields. -/
structure ResizeFields where
  width : String
  height : String
  deriving DecidableEq, Repr

/-- Raw `ops.crop` sub-state: four text fields. -/
structure CropFields where
  x : String
  y : String
  width : String
  height : String
  deriving DecidableEq, Repr

/-- Raw `ops.blur` sub-state: one text field. -/
structure BlurFields where
  radius : String
  deriving DecidableEq, Repr

/-- The raw form state held in the `ops` React state variable. -/
structure RawOps where
  resize : ResizeFields
  crop : CropFields
  grayscale : Bool
  sepia : Bool
  blur : BlurFields
  deriving DecidableEq, Repr

/-- `initialOps` from App.js. -/
def initialOps : RawOps :=
  { resize := { width := "", height := "" }
  , crop := { x := "", y := "", width := "", height := "" }
  , grayscale := false
  , sepia := false
  , blur := { radius := "" } }

/-- The normalized operation set `parsedOps` produces: `grayscale` is a plain
boolean field (always a key of the JS object); every other operation is an
optional payload, `none` meaning the key is absent. -/
structure ParsedOps where
  grayscale : Bool
  blur : Option JSNum
  resize : Option (Int × Int)
  crop : Option (Int × Int × Int × Int)
  brightness : Option JSNum
  contrast : Option JSNum
  deriving DecidableEq, Repr

/-- The `parsedOps` useMemo body from App.js, over the raw `ops` state and the
`brightness` / `contrast` text states. JavaScript truthiness is rendered
literally: `if (rw && rh)` and the `cw && ch` part of the crop guard are true
only when the integers are non-null AND nonzero, while `cx !== null` and
`cy !== null` accept zero. -/
def parsedOps (ops : RawOps) (brightness contrast : String) : ParsedOps :=
  let rw := toInt ops.resize.width
  let rh := toInt ops.resize.height
  let cx := toNonNegInt ops.crop.x
  let cy := toNonNegInt ops.crop.y
  let cw := toInt ops.crop.width
  let ch := toInt ops.crop.height
  let r := jsNumber ops.blur.radius
  let bf := jsNumber brightness
  let cf := jsNumber contrast
  { grayscale := ops.grayscale
  , blur := if r.isNaN = false ∧ r.gtZero = true then some r else none
  , resize :=
      match rw, rh with
      | some w, some h => if w ≠ 0 ∧ h ≠ 0 then some (w, h) else none
      | _, _ => none
  , crop :=
      match cx, cy, cw, ch with
      | some x, some y, some w, some h =>
          if w ≠ 0 ∧ h ≠ 0 then some (x, y, w, h) else none
      | _, _, _, _ => none
  , brightness :=
      if bf.isNaN = false ∧ bf.gtZero = true ∧ bf.eqOne = false then some bf
      else none
  , contrast :=
      if cf.isNaN = false ∧ cf.gtZero = true ∧ cf.eqOne = false then some cf
      else none }

/-- `Object.keys` of the normalized set, in JS insertion order. -/
def ParsedOps.keys (o : ParsedOps) : List String :=
  "grayscale" ::
    ((if o.blur.isSome then ["blur"] else []) ++
     (if o.resize.isSome then ["resize"] else []) ++
     (if o.crop.isSome then ["crop"] else []) ++
     (if o.brightness.isSome then ["brightness"] else []) ++
     (if o.contrast.isSome then ["contrast"] else []))

/-- An image record as returned by the backend list endpoint; variants are
kept as their opaque ids, the only parts of them the core logic touches. -/
structure Image where
  image_id : String
  filename : String
  size_bytes : Nat
  variants : List String
  deriving DecidableEq, Repr

/-- The React state variables of `App` that the flows read and write. -/
structure AppState where
  uploading : Bool
  processing : Bool
  error : String
  notice : String
  file : Option String
  images : List Image
  selectedImageId : String
  ops : RawOps
  brightness : String
  contrast : String
  deriving DecidableEq, Repr

/-- One gateway (HTTP) call actually dispatched by a flow. -/
inductive GatewayCall where
  | list : GatewayCall
  | upload : GatewayCall
  | process : GatewayCall
  deriving DecidableEq, Repr

/-- Outcome of the `fetch` in `fetchImages`: a parsed image list, a non-2xx
status, a network-level rejection carrying the resulting message string, or a
2xx response whose body fails to parse as JSON (the platform parse-error
message ends up in `setError`). -/
inductive ListResult where
  | ok (data : List Image) : ListResult
  | httpError (status : Nat) : ListResult
  | networkError (msg : String) : ListResult
  | malformed (msg : String) : ListResult
  deriving DecidableEq, Repr

/-- `fetchImages` from App.js: on success replace `images` wholesale and, when
no selection exists and the list is non-empty, select the first entry; on any
failure set `error` and touch nothing else. Returns the updated state and the
trace of gateway calls made (always exactly the one list call). -/
def fetchImages (s : AppState) (r : ListResult) : AppState × List GatewayCall :=
  match r with
  | .ok data =>
      let s1 := { s with images := data }
      let s2 :=
        if s1.selectedImageId = "" then
          match data with
          | img :: _ => { s1 with selectedImageId := img.image_id }
          | [] => s1
        else s1
      (s2, [.list])
  | .httpError status =>
      ({ s with error := "Failed to list images (" ++ toString status ++ ")" },
       [.list])
  | .networkError msg => ({ s with error := msg }, [.list])
  | .malformed msg => ({ s with error := msg }, [.list])

/-- Outcome of the upload POST: created image plus the outcome of the list
refresh that follows; a 2xx response with an unparsable body (the `res.json()`
call throws, carrying a platform message); a non-2xx status with the optional
`detail` field of its JSON body (`none` when the body has no parsable JSON);
or a network-level rejection. -/
inductive UploadOutcome where
  | success (img : Image) (listRes : ListResult) : UploadOutcome
  | malformedBody (msg : String) : UploadOutcome
  | httpError (status : Nat) (detail : Option String) : UploadOutcome
  | networkError (msg : String) : UploadOutcome
  deriving DecidableEq, Repr

/-- `msg?.detail || fallback`: the JS `||` also rejects an empty detail
string. -/
def detailOr (detail : Option String) (fallback : String) : String :=
  match detail with
  | some d => if d = "" then fallback else d
  | none => fallback

/-- `doUpload` from App.js. With no file selected it sets the error and
returns before any network access. Otherwise it enters the busy section
(`setUploading(true)`, clear error/notice), performs the POST, and on success
sets the notice, clears the file, runs `fetchImages` (which never throws:
it catches internally) and finally selects the uploaded image's id; every
failure is caught and mapped to `error`; the `finally` clause clears
`uploading` on every path. Returns the state and the gateway-call trace. -/
def doUpload (s : AppState) (w : UploadOutcome) : AppState × List GatewayCall :=
  match s.file with
  | none => ({ s with error := "Please choose an image to upload." }, [])
  | some _ =>
    let s1 := { s with uploading := true, error := "", notice := "" }
    match w with
    | .success img listRes =>
        let s2 := { s1 with notice := "Upload successful.", file := none }
        let res := fetchImages s2 listRes
        ({ res.1 with selectedImageId := img.image_id, uploading := false },
         .upload :: res.2)
    | .malformedBody msg =>
        ({ s1 with error := msg, uploading := false }, [.upload])
    | .httpError status detail =>
        ({ s1 with
            error := detailOr detail ("Upload failed (" ++ toString status ++ ")")
          , uploading := false }, [.upload])
    | .networkError msg =>
        ({ s1 with error := msg, uploading := false }, [.upload])

/-- Outcome of the process POST, with the same shape as uploads: on success
the response body is parsed and discarded, then the list refresh runs. -/
inductive ProcessOutcome where
  | success (listRes : ListResult) : ProcessOutcome
  | malformedBody (msg : String) : ProcessOutcome
  | httpError (status : Nat) (detail : Option String) : ProcessOutcome
  | networkError (msg : String) : ProcessOutcome
  deriving DecidableEq, Repr

/-- The two early-return guards at the top of `doProcess`: no selection, then
an empty `Object.keys(parsedOps)`. Returns the error message the guard sets,
or `none` when the flow proceeds to the network call. -/
def processGuard (s : AppState) : Option String :=
  if s.selectedImageId = "" then some "Please select an image to process."
  else if (parsedOps s.ops s.brightness s.contrast).keys.length = 0 then
    some "Choose at least one operation."
  else none

/-- `doProcess` from App.js: guards first (no network call when one fires),
then the busy section with `setProcessing(true)`, the POST of
`{image_id, operations}`, notice plus list refresh on success, caught error
otherwise, and a `finally` clearing `processing` on every path. -/
def doProcess (s : AppState) (w : ProcessOutcome) : AppState × List GatewayCall :=
  match processGuard s with
  | some e => ({ s with error := e }, [])
  | none =>
    let s1 := { s with processing := true, error := "", notice := "" }
    match w with
    | .success listRes =>
        let s2 := { s1 with notice := "Processing complete." }
        let res := fetchImages s2 listRes
        ({ res.1 with processing := false }, .process :: res.2)
    | .malformedBody msg =>
        ({ s1 with error := msg, processing := false }, [.process])
    | .httpError status detail =>
        ({ s1 with
            error := detailOr detail ("Process failed (" ++ toString status ++ ")")
          , processing := false }, [.process])
    | .networkError msg =>
        ({ s1 with error := msg, processing := false }, [.process])

/-- The leaf positions of the raw `ops` object that `updateOps` can address:
a two-level `group.key` path or a top-level flag. -/
inductive OpsPath where
  | resizeWidth : OpsPath
  | resizeHeight : OpsPath
  | cropX : OpsPath
  | cropY : OpsPath
  | cropWidth : OpsPath
  | cropHeight : OpsPath
  | grayscale : OpsPath
  | sepia : OpsPath
  | blurRadius : OpsPath
  deriving DecidableEq, Repr

/-- A leaf value: the text fields hold strings, the flags hold booleans. -/
inductive OpsValue where
  | str (s : String) : OpsValue
  | flag (b : Bool) : OpsValue
  deriving DecidableEq, Repr

/-- Read the leaf at a path. -/
def RawOps.read (o : RawOps) : OpsPath → OpsValue
  | .resizeWidth => .str o.resize.width
  | .resizeHeight => .str o.resize.height
  | .cropX => .str o.crop.x
  | .cropY => .str o.crop.y
  | .cropWidth => .str o.crop.width
  | .cropHeight => .str o.crop.height
  | .grayscale => .flag o.grayscale
  | .sepia => .flag o.sepia
  | .blurRadius => .str o.blur.radius

/-- `updateOps` from the Sidebar in App.js: split the path; for a `group.key`
path spread the group and replace the one key, for a top-level path replace
the flag. Each concrete path the UI uses is one case. -/
def updateOps (o : RawOps) : OpsPath → OpsValue → RawOps
  | .resizeWidth, .str v => { o with resize := { o.resize with width := v } }
  | .resizeHeight, .str v => { o with resize := { o.resize with height := v } }
  | .cropX, .str v => { o with crop := { o.crop with x := v } }
  | .cropY, .str v => { o with crop := { o.crop with y := v } }
  | .cropWidth, .str v => { o with crop := { o.crop with width := v } }
  | .cropHeight, .str v => { o with crop := { o.crop with height := v } }
  | .grayscale, .flag v => { o with grayscale := v }
  | .sepia, .flag v => { o with sepia := v }
  | .blurRadius, .str v => { o with blur := { o.blur with radius := v } }
  | _, _ => o

/-- Whether a value has the type the path's leaf holds (the UI only ever
sends matching ones: text to text fields, booleans to checkboxes). -/
def OpsPath.accepts : OpsPath → OpsValue → Bool
  | .grayscale, .flag _ => true
  | .sepia, .flag _ => true
  | .resizeWidth, .str _ => true
  | .resizeHeight, .str _ => true
  | .cropX, .str _ => true
  | .cropY, .str _ => true
  | .cropWidth, .str _ => true
  | .cropHeight, .str _ => true
  | .blurRadius, .str _ => true
  | _, _ => false

/-- A sample image used to instantiate universally quantified theorems. -/
def sampleImage : Image :=
  { image_id := "img-1", filename := "a.png", size_bytes := 10, variants := [] }

/-- A sample session state: one listed image, selected, default form. -/
def sampleState : AppState :=
  { uploading := false, processing := false, error := "", notice := ""
  , file := none, images := [sampleImage], selectedImageId := "img-1"
  , ops := initialOps, brightness := "1", contrast := "1" }

set_option linter.unnecessarySeqFocus false

/-- The two-dimension guard pattern of the resize branch, in isolation. -/
theorem resize_case (rw rh : Option Int) (w h : Int) :
    (match rw, rh with
      | some w', some h' => if w' ≠ 0 ∧ h' ≠ 0 then some (w', h') else none
      | _, _ => none) = some (w, h) ↔
      rw = some w ∧ rh = some h ∧ w ≠ 0 ∧ h ≠ 0 := by
  cases rw <;> cases rh <;> simp <;> aesop

/-- The four-field guard pattern of the crop branch, in isolation. -/
theorem crop_case (cx cy cw ch : Option Int) (x y w h : Int) :
    (match cx, cy, cw, ch with
      | some x', some y', some w', some h' =>
          if w' ≠ 0 ∧ h' ≠ 0 then some (x', y', w', h') else none
      | _, _, _, _ => none) = some (x, y, w, h) ↔
      cx = some x ∧ cy = some y ∧ cw = some w ∧ ch = some h
        ∧ w ≠ 0 ∧ h ≠ 0 := by
  cases cx <;> cases cy <;> cases cw <;> cases ch <;> simp <;> aesop

/-- The brightness/contrast guard pattern, in isolation. -/
theorem factor_case (x f : JSNum) :
    (if x.isNaN = false ∧ x.gtZero = true ∧ x.eqOne = false then some x
     else none) = some f ↔
      f = x ∧ f.isNaN = false ∧ f.gtZero = true ∧ f.eqOne = false := by
  split_ifs with hc <;> aesop

theorem parsedOps_resize_def (o : RawOps) (b c : String) :
    (parsedOps o b c).resize =
      match toInt o.resize.width, toInt o.resize.height with
      | some w, some h => if w ≠ 0 ∧ h ≠ 0 then some (w, h) else none
      | _, _ => none := rfl

theorem parsedOps_crop_def (o : RawOps) (b c : String) :
    (parsedOps o b c).crop =
      match toNonNegInt o.crop.x, toNonNegInt o.crop.y,
          toInt o.crop.width, toInt o.crop.height with
      | some x, some y, some w, some h =>
          if w ≠ 0 ∧ h ≠ 0 then some (x, y, w, h) else none
      | _, _, _, _ => none := rfl

theorem parsedOps_brightness_def (o : RawOps) (b c : String) :
    (parsedOps o b c).brightness =
      (if (jsNumber b).isNaN = false ∧ (jsNumber b).gtZero = true
          ∧ (jsNumber b).eqOne = false then some (jsNumber b) else none) := rfl

theorem parsedOps_contrast_def (o : RawOps) (b c : String) :
    (parsedOps o b c).contrast =
      (if (jsNumber c).isNaN = false ∧ (jsNumber c).gtZero = true
          ∧ (jsNumber c).eqOne = false then some (jsNumber c) else none) := rfl

/-- Double-range fidelity of the literal rounding: a literal beyond the
double range is Infinity (and so fails `toInt`'s finiteness test exactly as
in the source), a literal below half the smallest subnormal is zero, the
smallest subnormal parses to its exact value `2^-1074`, and seventeen nines
after the point round to exactly 1 — matching JavaScript `Number()`. -/
theorem jsNumber_double_boundaries :
    jsNumber "1e999" = .inf false
    ∧ jsNumber "1e-999" = .num 0
    ∧ jsNumber "5e-324" = .num (mkRat 1 (2 ^ 1074))
    ∧ jsNumber "0.99999999999999999" = .num 1
    ∧ toInt "1e999" = none :=
  ⟨by decide, by decide, by decide, by decide, by decide⟩

/-- Claim C1 (counterexample): with width "0.5" and height "600" both texts
pass the claimed rule — the numeric parse succeeds, the values are finite and
positive, and they floor to the integers 0 and 600 — yet the normalizer omits
resize (the JS truthiness test `rw && rh` rejects the floored value 0). -/
theorem claim1_counterexample :
    (parsedOps { initialOps with resize := { width := "0.5", height := "600" } }
        "1" "1").resize = none
    ∧ toInt "0.5" = some 0 ∧ toInt "600" = some 600 :=
  ⟨by decide, by decide, by decide⟩

/-- Claim C1 (amended): the normalizer includes resize exactly when both
dimension texts parse to finite positive values whose floored integers are
nonzero (equivalently, values ≥ 1); the payload then carries the two floored
integers, and any failure omits the key entirely. -/
theorem claim1_resize_rule (o : RawOps) (b c : String) (w h : Int) :
    (parsedOps o b c).resize = some (w, h) ↔
      toInt o.resize.width = some w ∧ toInt o.resize.height = some h
        ∧ w ≠ 0 ∧ h ≠ 0 := by
  rw [parsedOps_resize_def]
  exact resize_case _ _ w h

/-- Claim C1 (witness): width "800", height "600" yields resize (800, 600). -/
theorem claim1_witness :
    (parsedOps { initialOps with resize := { width := "800", height := "600" } }
        "1" "1").resize = some (800, 600) :=
  (claim1_resize_rule _ "1" "1" 800 600).mpr
    ⟨by decide, by decide, by decide, by decide⟩

/-- Claim C2 (counterexample): the brightness text "1e999" — typeable into
the number input — overflows the double range, so `Number()` yields the
non-finite `Infinity` and under the claim the key must be absent; the code
only tests `!Number.isNaN`, so it includes brightness with an infinite
factor. -/
theorem claim2_counterexample :
    (parsedOps initialOps "1e999" "1").brightness = some (JSNum.inf false)
    ∧ (JSNum.inf false).isFinite = false :=
  ⟨by decide, by decide⟩

/-- Claim C2 (amended): brightness (resp. contrast) is included exactly when
the text parses to a number that is not NaN, is greater than 0 and is not the
neutral value 1 — finiteness is not required, so an overflowed literal such
as "1e999" (Infinity) is included — and the payload carries the parsed
factor; otherwise the key is absent. -/
theorem claim2_factor_rule (o : RawOps) (b c : String) (f g : JSNum) :
    ((parsedOps o b c).brightness = some f ↔
        f = jsNumber b ∧ f.isNaN = false ∧ f.gtZero = true ∧ f.eqOne = false)
    ∧ ((parsedOps o b c).contrast = some g ↔
        g = jsNumber c ∧ g.isNaN = false ∧ g.gtZero = true ∧ g.eqOne = false) := by
  rw [parsedOps_brightness_def, parsedOps_contrast_def]
  exact ⟨factor_case _ f, factor_case _ g⟩

/-- Claim C2 (witness): factor "1.5" is included, factor "1" is omitted. -/
theorem claim2_witness :
    (parsedOps initialOps "1.5" "1").brightness = some (jsNumber "1.5")
    ∧ (parsedOps initialOps "1.5" "1").contrast = none :=
  ⟨((claim2_factor_rule initialOps "1.5" "1" (jsNumber "1.5") (jsNumber "1")).1).mpr
      ⟨rfl, by decide, by decide, by decide⟩,
   by decide⟩

/-- Claim C3 (counterexample): with x "0", y "0", width "0.5", height "50"
all four texts pass the claimed per-field rules (x, y finite and ≥ 0; width,
height finite and > 0, floored), yet the normalizer omits crop: the floored
width 0 fails the JS truthiness test `cw && ch`. -/
theorem claim3_counterexample :
    (parsedOps
        { initialOps with crop := { x := "0", y := "0", width := "0.5", height := "50" } }
        "1" "1").crop = none
    ∧ toNonNegInt "0" = some 0 ∧ toInt "0.5" = some 0 ∧ toInt "50" = some 50 :=
  ⟨by decide, by decide, by decide, by decide⟩

/-- Claim C3 (amended): crop is included exactly when x and y parse to finite
values ≥ 0 (zero allowed, floored) and width and height parse to finite
positive values whose floored integers are nonzero (values ≥ 1); the payload
carries the four floored integers, and any single failure omits the key. -/
theorem claim3_crop_rule (o : RawOps) (b c : String) (x y w h : Int) :
    (parsedOps o b c).crop = some (x, y, w, h) ↔
      toNonNegInt o.crop.x = some x ∧ toNonNegInt o.crop.y = some y
        ∧ toInt o.crop.width = some w ∧ toInt o.crop.height = some h
        ∧ w ≠ 0 ∧ h ≠ 0 := by
  rw [parsedOps_crop_def]
  exact crop_case _ _ _ _ x y w h

/-- Claim C3 (witness): x "0", y "0", width "100", height "50" yields crop
(0, 0, 100, 50). -/
theorem claim3_witness :
    (parsedOps
        { initialOps with crop := { x := "0", y := "0", width := "100", height := "50" } }
        "1" "1").crop = some (0, 0, 100, 50) :=
  (claim3_crop_rule _ "1" "1" 0 0 100 50).mpr
    ⟨by decide, by decide, by decide, by decide, by decide, by decide⟩

/-- Claim C4 (confirmed): in every normalized set the grayscale value mirrors
the checkbox, the grayscale key is present whatever the other fields hold,
and on the default form (with neutral brightness and contrast) it is the only
key present. -/
theorem claim4_grayscale_always (o : RawOps) (b c : String) :
    (parsedOps o b c).grayscale = o.grayscale
    ∧ "grayscale" ∈ (parsedOps o b c).keys
    ∧ (parsedOps initialOps "1" "1").keys = ["grayscale"] :=
  ⟨rfl, List.mem_cons_self _ _, by decide⟩

/-- Claim C5 (confirmed): the normalized key set is never empty — grayscale
is always a key — so with a selection present the process guard passes, and
no reachable state at all makes the guard produce the empty-operations
error. -/
theorem claim5_guard_never_empty (s : AppState) (h : s.selectedImageId ≠ "") :
    (parsedOps s.ops s.brightness s.contrast).keys ≠ []
    ∧ processGuard s = none
    ∧ ∀ t : AppState, processGuard t ≠ some "Choose at least one operation." := by
  refine ⟨by simp [ParsedOps.keys], ?_, ?_⟩
  · unfold processGuard
    rw [if_neg h, if_neg (by simp [ParsedOps.keys])]
  · intro t
    unfold processGuard
    split_ifs with h1 h2
    · intro hx
      injection hx with e
      exact absurd e (by decide)
    · exact absurd h2 (by simp [ParsedOps.keys])
    · intro hx
      cases hx

/-- Claim C5 (witness): on a state with an image selected and only the
default grayscale=false key, the guard passes. -/
theorem claim5_witness :
    (parsedOps sampleState.ops sampleState.brightness sampleState.contrast).keys ≠ []
    ∧ processGuard sampleState = none
    ∧ ∀ t : AppState, processGuard t ≠ some "Choose at least one operation." :=
  claim5_guard_never_empty sampleState (by decide)

/-- Claim C6 (confirmed): triggering upload with no file selected sets the
exact error text, dispatches no gateway call, and changes nothing else —
images, selection and the busy flag are untouched. -/
theorem claim6_upload_no_file (s : AppState) (w : UploadOutcome)
    (h : s.file = none) :
    doUpload s w = ({ s with error := "Please choose an image to upload." }, []) := by
  unfold doUpload
  rw [h]

/-- Claim C6 (witness): the guard fires on the sample state, whose file is
unset. -/
theorem claim6_witness :
    doUpload sampleState (.networkError "boom") =
      ({ sampleState with error := "Please choose an image to upload." }, []) :=
  claim6_upload_no_file sampleState (.networkError "boom") rfl

/-- Claim C7 (confirmed): whenever the upload flow passes its precondition (a
file is selected) its busy flag is false on exit on every path, and likewise
for the process flow whenever a selection exists — gateway success, gateway
failure and malformed-response failure alike. -/
theorem claim7_busy_cleared (s t : AppState) (wu : UploadOutcome)
    (wp : ProcessOutcome) (hu : s.file ≠ none) (hp : t.selectedImageId ≠ "") :
    ((doUpload s wu).1).uploading = false
    ∧ ((doProcess t wp).1).processing = false := by
  constructor
  · rcases hf : s.file with _ | f
    · exact absurd hf hu
    · unfold doUpload
      rw [hf]
      cases wu <;> rfl
  · have hg : processGuard t = none := by
      unfold processGuard
      rw [if_neg hp, if_neg (by simp [ParsedOps.keys])]
    unfold doProcess
    rw [hg]
    cases wp <;> rfl

/-- Claim C7 (witness): both flows at the sample state (with a file attached
for the upload), under a network failure, end with their flag cleared. -/
theorem claim7_witness :
    ((doUpload { sampleState with file := some "f.png" }
        (.networkError "boom")).1).uploading = false
    ∧ ((doProcess sampleState (.networkError "boom")).1).processing = false :=
  claim7_busy_cleared { sampleState with file := some "f.png" } sampleState
    (.networkError "boom") (.networkError "boom") (by decide) (by decide)

/-- Claim C8 (confirmed): a failed list refresh (non-2xx status, network
rejection, or malformed body) changes the state only by setting the error
message — in particular `images` is exactly the previous sequence — while a
successful refresh replaces `images` wholesale and applies the auto-select
rule: select the first entry when no selection exists and the list is
non-empty. -/
theorem claim8_list_refresh (s : AppState) (status : Nat) (m1 m2 : String)
    (data : List Image) :
    (fetchImages s (.httpError status)).1 =
        { s with error := "Failed to list images (" ++ toString status ++ ")" }
    ∧ (fetchImages s (.networkError m1)).1 = { s with error := m1 }
    ∧ (fetchImages s (.malformed m2)).1 = { s with error := m2 }
    ∧ (fetchImages s (.ok data)).1.images = data
    ∧ (fetchImages s (.ok data)).1.selectedImageId =
        (if s.selectedImageId = "" then
          match data with
          | img :: _ => img.image_id
          | [] => s.selectedImageId
        else s.selectedImageId) := by
  refine ⟨rfl, rfl, rfl, ?_, ?_⟩
  · by_cases hsel : s.selectedImageId = "" <;> cases data <;>
      simp [fetchImages, hsel]
  · by_cases hsel : s.selectedImageId = "" <;> cases data <;>
      simp [fetchImages, hsel]

/-- Claim C9 (confirmed): a field patch by path replaces exactly the
addressed leaf — sibling fields in the same group and every other group read
back unchanged. -/
theorem claim9_patch_frame (o : RawOps) (p q : OpsPath) (v : OpsValue)
    (hv : OpsPath.accepts p v = true) :
    (updateOps o p v).read p = v
    ∧ (q ≠ p → (updateOps o p v).read q = o.read q) := by
  cases p <;> cases v <;>
    first
      | exact Bool.noConfusion hv
      | exact ⟨rfl, fun hq => by
          cases q <;> first | rfl | exact absurd rfl hq⟩

/-- Claim C9 (witness): patching `resize.width` stores the new text and
leaves the sibling `resize.height` unchanged. -/
theorem claim9_witness :
    (updateOps initialOps .resizeWidth (.str "800")).read .resizeWidth = .str "800"
    ∧ (updateOps initialOps .resizeWidth (.str "800")).read .resizeHeight =
        initialOps.read .resizeHeight :=
  ⟨(claim9_patch_frame initialOps .resizeWidth .resizeWidth (.str "800") rfl).1,
   (claim9_patch_frame initialOps .resizeWidth .resizeHeight (.str "800") rfl).2
     (by decide)⟩

/-- Every normalized key is one of the six operation names, and sepia is
never among them. -/
theorem keys_subset (po : ParsedOps) :
    po.keys ⊆ ["grayscale", "blur", "resize", "crop", "brightness", "contrast"]
    ∧ "sepia" ∉ po.keys := by
  unfold ParsedOps.keys
  constructor
  · intro k hk
    simp only [List.mem_cons, List.mem_append] at hk ⊢
    split_ifs at hk <;> simp_all <;> tauto
  · simp only [List.mem_cons, List.mem_append]
    split_ifs <;> simp

/-- Claim C10 (confirmed): the key set of every normalized operation set is
contained in the six known operation names; the raw sepia flag never reaches
the payload and the normalizer's output does not depend on it at all. -/
theorem claim10_key_invariant (o : RawOps) (b c : String) (sp : Bool) :
    (parsedOps o b c).keys ⊆
        ["grayscale", "blur", "resize", "crop", "brightness", "contrast"]
    ∧ "sepia" ∉ (parsedOps o b c).keys
    ∧ parsedOps { o with sepia := sp } b c = parsedOps o b c :=
  ⟨(keys_subset _).1, (keys_subset _).2, rfl⟩

end ImageSuite
